import Mathlib

/-!
Verification development for the Assembly.AI backend (Express + Supabase).

The definitions below are a shallow embedding of the repository's source:
* `routes/skus.js` (SKU creation, background generation pipeline, status poll),
* `middleware/auth.js` (`checkSkuLimit` quota guard),
* `routes/analytics.js` (public scan / complete / question recording and
  the time-series grouping helpers `getGroupBy` / `groupScans`),
* `lib/video.js` (`generateVideo`), `lib/qr.js` (`generateQRCode`),
* `server.js` (`GET /s/:skuCode` consumer resolution page),
* the SQL schema (tables `skus`, `scans`, `questions`).

The relational store is modelled as explicit lists of typed rows; the
PostgREST `.single()` call (data only when exactly one row matches) is
modelled by `singleRow`.  Timestamps used for bucketing are integer day
numbers since the Unix epoch (`new Date(..).toISOString().split('T')[0]`
keys are represented by the day number itself, whose order agrees with
the ISO string order; month keys `YYYY-MM` by `year * 100 + month`).
-/

/-- Lifecycle status of a SKU row: `status text default 'processing'`
    with values processing | live | error in the schema. -/
inductive SkuStatus
  | processing
  | live
  | err
deriving DecidableEq, Repr

/-- One parsed instruction step, as produced by `parseSteps` in
    `lib/video.js`. -/
structure Step where
  stepNumber : Nat
  description : String
deriving DecidableEq, Repr

/-- A row of the `skus` table.  Derived fields (`video_url`,
    `video_duration`, `step_count`, `qr_code_url`, `qr_target_url`) are
    nullable columns, modelled with `Option`. -/
structure Sku where
  id : Nat
  companyId : Nat
  skuCode : String
  productName : String
  category : String
  status : SkuStatus
  fileUrl : Option String
  videoUrl : Option String
  videoDuration : Option Nat
  stepCount : Option Nat
  qrCodeUrl : Option String
  qrTargetUrl : Option String
deriving DecidableEq, Repr

/-- A row of the `scans` table. -/
structure Scan where
  skuId : Nat
  companyId : Nat
  sessionId : String
  userAgent : Option String
  hourOfDay : Nat
  completed : Bool
  completionStep : Option Nat
  rating : Option Nat
  scannedAt : Nat
deriving DecidableEq, Repr

/-- A row of the `questions` table. -/
structure Question where
  skuId : Nat
  companyId : Nat
  sessionId : String
  questionText : String
  stepNumber : Option Nat
deriving DecidableEq, Repr

/-- The relational store: the three tables the verified routes touch. -/
structure Db where
  skus : List Sku
  scans : List Scan
  questions : List Question
deriving DecidableEq, Repr

/-- Supabase `.single()`: the query's `data` is non-null exactly when the
    filtered result has exactly one row; zero rows or several rows both
    yield a null `data`. -/
def singleRow {α : Type} : List α → Option α
  | [x] => some x
  | _ => none

/-- Supabase `update(..).eq('id', skuId)` over the `skus` table: every
    row whose `id` matches is replaced by the updated row. -/
def updateSkus (db : Db) (skuId : Nat) (f : Sku → Sku) : Db :=
  { db with skus := db.skus.map (fun s => if s.id = skuId then f s else s) }

/-- Result of `generateVideo` in `lib/video.js`. -/
structure VideoResult where
  videoUrl : String
  videoDuration : Nat
  stepCount : Nat
deriving DecidableEq, Repr

/-- Result of `generateQRCode` in `lib/qr.js`. -/
structure QrResult where
  qrCodeUrl : String
  qrTargetUrl : String
deriving DecidableEq, Repr

/-- `parseSteps` from `lib/video.js`: the placeholder always returns the
    same six mock steps. -/
def parseSteps : List Step :=
  [ { stepNumber := 1, description := "Lay out all parts on a flat surface and identify each component using the parts list." },
    { stepNumber := 2, description := "Attach the side panels to the base using the provided cam locks. Do not fully tighten yet." },
    { stepNumber := 3, description := "Insert the shelf pins into the pre-drilled holes at your desired height." },
    { stepNumber := 4, description := "Slide the shelves into position on the shelf pins." },
    { stepNumber := 5, description := "Attach the back panel by pressing it into the frame grooves." },
    { stepNumber := 6, description := "Fully tighten all cam locks and check that the unit is stable." } ]

/-- `generateVideo` from `lib/video.js`: placeholder video URL, duration
    of 38 seconds per step, step count equal to the number of steps. -/
def generateVideo (skuId : Nat) (steps : List Step) : VideoResult :=
  { videoUrl := "https://storage.assemblyai.app/videos/" ++ toString skuId ++ "/assembly.mp4",
    videoDuration := steps.length * 38,
    stepCount := steps.length }

/-- `generateQRCode` from `lib/qr.js`: QR image path under /public/qr and
    target URL QR_BASE_URL/skuCode. -/
def generateQRCode (baseUrl : String) (skuId : Nat) (skuCode : String) : QrResult :=
  { qrCodeUrl := "/public/qr/" ++ toString skuId ++ ".png",
    qrTargetUrl := baseUrl ++ "/" ++ skuCode }

/-- The single `update` that commits a successful generation run: status
    flips to live and all five derived fields are written together
    (step 4 of `processSkuGeneration`). -/
def commitLive (db : Db) (skuId : Nat) (vr : VideoResult) (qr : QrResult) : Db :=
  updateSkus db skuId (fun s =>
    { s with status := SkuStatus.live,
             videoUrl := some vr.videoUrl,
             videoDuration := some vr.videoDuration,
             stepCount := some vr.stepCount,
             qrCodeUrl := some qr.qrCodeUrl,
             qrTargetUrl := some qr.qrTargetUrl })

/-- The route's background rejection handler: `update({ status: 'error' })`
    touching only the status column. -/
def markError (db : Db) (skuId : Nat) : Db :=
  updateSkus db skuId (fun s => { s with status := SkuStatus.err })

/-- `processSkuGeneration` from `routes/skus.js`, as the async function
    itself: it performs its storage updates in order and either resolves
    (`Except.ok`) or rejects (`Except.error`).  External effects that can
    reject are parametrised: `videoOk` / `qrOk` model the awaited
    generation calls of steps 2-3, `prefsQrReady` models the
    `notification_preferences` read of step 5 (`none` = no record, in
    which case the email is sent by default), and `emailOk` models
    `sendQRReadyEmail`.  On the success path step 4 commits the live row
    before step 5 attempts notification. -/
def processSkuGeneration (db : Db) (sku : Sku) (baseUrl : String) (steps : List Step)
    (videoOk qrOk : Bool) (prefsQrReady : Option Bool) (emailOk : Bool) :
    Db × Except Unit Unit :=
  if !videoOk then (db, Except.error ())
  else if !qrOk then (db, Except.error ())
  else
    let vr := generateVideo sku.id steps
    let qr := generateQRCode baseUrl sku.id sku.skuCode
    let db1 := commitLive db sku.id vr qr
    if prefsQrReady.getD true then
      if emailOk then (db1, Except.ok ()) else (db1, Except.error ())
    else (db1, Except.ok ())

/-- The whole background task as launched by `POST /api/skus`:
    `processSkuGeneration(..).catch(err => update({ status: 'error' }))`.
    Any rejection of the async function, at whatever point, makes the
    catch handler overwrite the row's status with error. -/
def skuGenerationTask (db : Db) (sku : Sku) (baseUrl : String) (steps : List Step)
    (videoOk qrOk : Bool) (prefsQrReady : Option Bool) (emailOk : Bool) : Db :=
  match processSkuGeneration db sku baseUrl steps videoOk qrOk prefsQrReady emailOk with
  | (db', Except.ok _) => db'
  | (db', Except.error _) => markError db' sku.id

/-- Outcome of the `checkSkuLimit` middleware in `middleware/auth.js`. -/
inductive QuotaDecision
  | allow
  | deny (currentCount : Nat) (limit : Int)
deriving DecidableEq, Repr

/-- Count of the company's SKUs in live status, as queried by
    `checkSkuLimit` (`eq('company_id', ..).eq('status', 'live')`). -/
def liveSkuCount (db : Db) (companyId : Nat) : Nat :=
  (db.skus.filter (fun s => s.companyId = companyId ∧ s.status = SkuStatus.live)).length

/-- `checkSkuLimit` from `middleware/auth.js`: `sku_limit === -1` is the
    unlimited sentinel and short-circuits to allow before any count;
    otherwise the request is rejected with 403 carrying `currentCount`
    and `limit` exactly when `count >= company.sku_limit`. -/
def checkSkuLimit (db : Db) (companyId : Nat) (skuLimit : Int) : QuotaDecision :=
  if skuLimit = -1 then QuotaDecision.allow
  else if (liveSkuCount db companyId : Int) ≥ skuLimit then
    QuotaDecision.deny (liveSkuCount db companyId) skuLimit
  else QuotaDecision.allow

/-- Response of `POST /api/skus` after validation and quota middleware:
    409 on duplicate code within the company, else 202. -/
inductive CreateResp
  | conflict
  | accepted
deriving DecidableEq, Repr

/-- The freshly inserted SKU row of `POST /api/skus`: status processing,
    no derived field set. -/
def mkSku (id companyId : Nat) (code name category fileUrl : String) : Sku :=
  { id := id, companyId := companyId, skuCode := code, productName := name,
    category := category, status := SkuStatus.processing,
    fileUrl := some fileUrl, videoUrl := none, videoDuration := none,
    stepCount := none, qrCodeUrl := none, qrTargetUrl := none }

/-- The duplicate-check-then-insert body of `POST /api/skus`: a
    `.single()` lookup on `(company_id, sku_code)`; when a row is found
    the request fails 409 without touching the store, otherwise the new
    row is inserted in processing state. -/
def createSku (db : Db) (newId companyId : Nat) (code name category fileUrl : String) :
    Db × CreateResp :=
  match singleRow (db.skus.filter (fun s => s.companyId = companyId ∧ s.skuCode = code)) with
  | some _ => (db, CreateResp.conflict)
  | none =>
      ({ db with skus := db.skus ++ [mkSku newId companyId code name category fileUrl] },
       CreateResp.accepted)

/-- Response of `GET /api/skus/:id/status`. -/
inductive StatusResp
  | notFound
  | ok (status : SkuStatus) (qrCodeUrl qrTargetUrl videoUrl : Option String)
      (stepCount : Option Nat)
deriving DecidableEq, Repr

/-- `GET /api/skus/:id/status`: a `.single()` lookup filtered on both
    the item id and the authenticated company id; any miss (unknown id or
    a row owned by another company) produces the same 404 response. -/
def getStatus (db : Db) (itemId companyId : Nat) : StatusResp :=
  match singleRow (db.skus.filter (fun s => s.id = itemId ∧ s.companyId = companyId)) with
  | none => StatusResp.notFound
  | some s => StatusResp.ok s.status s.qrCodeUrl s.qrTargetUrl s.videoUrl s.stepCount

/-- Response of the public recording routes in `routes/analytics.js`. -/
inductive PublicResp
  | success
  | notFound
  | badRequest
deriving DecidableEq, Repr

/-- `POST /api/analytics/scan`: requires a code, resolves it globally
    with `.single()` over `sku_code` and `status = 'live'`, and inserts a
    fresh scan row (session defaulting to anonymous). -/
def scanHandler (db : Db) (skuCode : String) (sessionId : Option String)
    (userAgent : Option String) (hourOfDay now : Nat) : Db × PublicResp :=
  if skuCode = "" then (db, PublicResp.badRequest)
  else
    match singleRow (db.skus.filter (fun s => s.skuCode = skuCode ∧ s.status = SkuStatus.live)) with
    | none => (db, PublicResp.notFound)
    | some sku =>
        ({ db with scans := db.scans ++
            [{ skuId := sku.id, companyId := sku.companyId,
               sessionId := sessionId.getD "anonymous", userAgent := userAgent,
               hourOfDay := hourOfDay, completed := false, completionStep := none,
               rating := none, scannedAt := now }] },
         PublicResp.success)

/-- Scans matching the completion update's filter
    (`eq('sku_id', ..).eq('session_id', ..)`). -/
def matchingScans (scans : List Scan) (skuId : Nat) (sessionId : String) : List Scan :=
  scans.filter (fun s => s.skuId = skuId ∧ s.sessionId = sessionId)

/-- Largest element of a list of timestamps, `none` on the empty list:
    the `scanned_at` value of the row the
    `.order('scanned_at', descending).limit(1)` update targets. -/
def maxTimestamp : List Nat → Option Nat
  | [] => none
  | t :: ts =>
      match maxTimestamp ts with
      | none => some t
      | some m => some (max t m)

/-- In-place update of the first row satisfying the predicate, leaving
    every other row unchanged: a one-row limited update. -/
def updateFirst {α : Type} (p : α → Bool) (f : α → α) : List α → List α
  | [] => []
  | x :: xs => if p x then f x :: xs else x :: updateFirst p f xs

/-- JS `rating || null`: a missing or zero (falsy) rating is stored as
    null. -/
def normRating : Option Nat → Option Nat
  | none => none
  | some r => if r = 0 then none else some r

/-- The column values written by the completion update: completed is set,
    completion step and rating are attached. -/
def applyCompletion (step rating : Option Nat) (s : Scan) : Scan :=
  { s with completed := true, completionStep := step, rating := rating }

/-- `POST /api/analytics/complete`: resolves the code globally with
    `.single()` (no status condition), then updates the single most
    recent scan row for that item and session — never inserting — and
    answers success even when zero rows match. -/
def completeHandler (db : Db) (skuCode sessionId : String)
    (completionStep rating : Option Nat) : Db × PublicResp :=
  match singleRow (db.skus.filter (fun s => s.skuCode = skuCode)) with
  | none => (db, PublicResp.notFound)
  | some sku =>
      match maxTimestamp ((matchingScans db.scans sku.id sessionId).map Scan.scannedAt) with
      | none => (db, PublicResp.success)
      | some t =>
          let scans' := updateFirst
            (fun s => s.skuId = sku.id ∧ s.sessionId = sessionId ∧ s.scannedAt = t)
            (applyCompletion completionStep (normRating rating)) db.scans
          ({ db with scans := scans' }, PublicResp.success)

/-- `POST /api/analytics/question`: requires code and question text,
    resolves the code globally with `.single()` (no status condition),
    and appends a question row. -/
def questionHandler (db : Db) (skuCode : String) (sessionId : Option String)
    (questionText : String) (stepNumber : Option Nat) : Db × PublicResp :=
  if skuCode = "" ∨ questionText = "" then (db, PublicResp.badRequest)
  else
    match singleRow (db.skus.filter (fun s => s.skuCode = skuCode)) with
    | none => (db, PublicResp.notFound)
    | some sku =>
        ({ db with questions := db.questions ++
            [{ skuId := sku.id, companyId := sku.companyId,
               sessionId := sessionId.getD "anonymous",
               questionText := questionText, stepNumber := stepNumber }] },
         PublicResp.success)

/-- Response of the consumer resolution page `GET /s/:skuCode`. -/
inductive ResolveResp
  | notFound
  | page (productName : String) (stepCount videoDuration : Option Nat)
deriving DecidableEq, Repr

/-- `GET /s/:skuCode` from `server.js`: a global `.single()` lookup on
    `sku_code` and `status = 'live'`; a miss serves the 404 page. -/
def resolvePage (db : Db) (skuCode : String) : ResolveResp :=
  match singleRow (db.skus.filter (fun s => s.skuCode = skuCode ∧ s.status = SkuStatus.live)) with
  | none => ResolveResp.notFound
  | some s => ResolveResp.page s.productName s.stepCount s.videoDuration

/-- Grouping granularity returned by `getGroupBy`. -/
inductive GroupBy
  | day
  | week
  | month
deriving DecidableEq, Repr

/-- `getGroupBy` from `routes/analytics.js`: day for the 7- and 30-day
    presets, week for the 90- and 180-day presets, month for everything
    else (the 365-day preset, the unbounded preset, and any unrecognized
    period string). -/
def getGroupBy (period : String) : GroupBy :=
  if period = "7d" then GroupBy.day
  else if period = "30d" then GroupBy.day
  else if period = "3m" ∨ period = "6m" then GroupBy.week
  else GroupBy.month

/-- Day of week of a day number (days since 1970-01-01, a Thursday),
    0 = Sunday .. 6 = Saturday, matching JS `Date.getDay`. -/
def dayOfWeek (d : Int) : Int := (d + 4).emod 7

/-- Month key of a day number, encoded as `year * 100 + month` so that
    the integer order coincides with the order of the source's
    `YYYY-MM` string keys.  The year/month are obtained by the standard
    civil-from-days conversion (matching JS `getFullYear`/`getMonth`). -/
def civilMonthKey (d : Int) : Int :=
  let z := d + 719468
  let era := z.ediv 146097
  let doe := z - era * 146097
  let yoe := (doe - doe.ediv 1460 + doe.ediv 36524 - doe.ediv 146096).ediv 365
  let y := yoe + era * 400
  let doy := doe - (365 * yoe + yoe.ediv 4 - yoe.ediv 100)
  let mp := (5 * doy + 2).ediv 153
  let m := mp + (if mp < 10 then 3 else (-9 : Int))
  (y + (if m ≤ 2 then 1 else 0)) * 100 + m

/-- The bucket key `groupScans` derives from one event's timestamp
    (timestamps are day numbers since the epoch; ISO `YYYY-MM-DD` keys
    are represented by the day number itself, whose order agrees with
    the string order): the event's day for day grouping, the
    Sunday-aligned start of the event's week for week grouping
    (`setDate(getDate() - getDay())`), the event's `YYYY-MM` month for
    month grouping. -/
def bucketKey (gb : GroupBy) (d : Int) : Int :=
  match gb with
  | GroupBy.day => d
  | GroupBy.week => d - dayOfWeek d
  | GroupBy.month => civilMonthKey d

/-- `groupScans` from `routes/analytics.js`: tally the scans' bucket
    keys into a map and emit the `(key, count)` entries sorted ascending
    by key. -/
def groupScans (scans : List Int) (gb : GroupBy) : List (Int × Nat) :=
  let keys := (scans.map (bucketKey gb)).dedup
  (List.insertionSort (· ≤ ·) keys).map
    (fun k => (k, (scans.map (bucketKey gb)).count k))

/-- A SKU row freshly inserted in processing state, used as concrete
    input for the pipeline theorems. -/
def skuP : Sku :=
  { id := 7, companyId := 1, skuCode := "K-1", productName := "Shelf",
    category := "Other", status := SkuStatus.processing,
    fileUrl := some "/uploads/u.pdf", videoUrl := none, videoDuration := none,
    stepCount := none, qrCodeUrl := none, qrTargetUrl := none }

/-- Store holding just the freshly created SKU. -/
def dbP : Db := { skus := [skuP], scans := [], questions := [] }

/-- Store after a background run in which steps 1-4 succeed (the live
    row is committed) and the notification email of step 5 then fails. -/
def dbAfterNotifyFail : Db :=
  skuGenerationTask dbP skuP "https://assemblyai.app/s" parseSteps true true none false

/-- Store after a fully successful background run (notification
    included). -/
def dbAfterSuccess : Db :=
  skuGenerationTask dbP skuP "https://assemblyai.app/s" parseSteps true true none true

/-- Two live SKU rows sharing one code across two different companies
    (allowed by the `unique(company_id, sku_code)` constraint). -/
def skuDupA : Sku :=
  { id := 10, companyId := 1, skuCode := "X-1", productName := "P1",
    category := "Other", status := SkuStatus.live, fileUrl := none,
    videoUrl := some "v1", videoDuration := some 76, stepCount := some 2,
    qrCodeUrl := some "q1", qrTargetUrl := some "t1" }

/-- The second company's row with the same public code. -/
def skuDupB : Sku := { skuDupA with id := 20, companyId := 2, productName := "P2" }

/-- Store where the same code is live for two different companies. -/
def dbDup : Db := { skus := [skuDupA, skuDupB], scans := [], questions := [] }

/-- A company (id 1) holding exactly two live SKUs, for the quota
    witness. -/
def dbQuota : Db :=
  { skus := [ { skuDupA with id := 31, skuCode := "Q-1" },
              { skuDupA with id := 32, skuCode := "Q-2" } ],
    scans := [], questions := [] }

/-- A store whose only SKU is the processing-state item `skuP`, with one
    prior scan for session s9, for the C10 witness. -/
def dbGate : Db :=
  { skus := [skuP],
    scans := [ { skuId := 7, companyId := 1, sessionId := "s9", userAgent := none,
                 hourOfDay := 9, completed := false, completionStep := none,
                 rating := none, scannedAt := 50 } ],
    questions := [] }

theorem updateFirst_length {α : Type} (p : α → Bool) (f : α → α) (l : List α) :
    (updateFirst p f l).length = l.length := by
  induction l with
  | nil => rfl
  | cons x xs ih =>
      simp only [updateFirst]
      split <;> simp [ih]

theorem updateFirst_of_forall_not {α : Type} (p : α → Bool) (f : α → α) (l : List α)
    (h : ∀ x ∈ l, p x = false) : updateFirst p f l = l := by
  induction l with
  | nil => rfl
  | cons x xs ih =>
      have hx : p x = false := h x (List.mem_cons_self _ _)
      simp only [updateFirst, hx]
      simp [ih fun y hy => h y (List.mem_cons_of_mem _ hy)]

theorem updateFirst_exists {α : Type} (p : α → Bool) (f : α → α) (l : List α)
    (h : ∃ x ∈ l, p x = true) :
    ∃ i : Fin l.length, p (l.get i) = true ∧
      updateFirst p f l = l.set i (f (l.get i)) := by
  induction l with
  | nil => simp at h
  | cons x xs ih =>
      by_cases hx : p x = true
      · exact ⟨⟨0, by simp⟩, hx, by simp [updateFirst, hx]⟩
      · obtain ⟨y, hy, hpy⟩ := h
        have hyxs : y ∈ xs := by
          rcases List.mem_cons.mp hy with h1 | h1
          · exact absurd (h1 ▸ hpy) hx
          · exact h1
        obtain ⟨i, hpi, heq⟩ := ih ⟨y, hyxs, hpy⟩
        refine ⟨⟨i.val + 1, by simp⟩, by simpa using hpi, ?_⟩
        simp only [updateFirst, hx, if_false, List.set]
        simpa using heq

theorem maxTimestamp_eq_none (l : List Nat) : maxTimestamp l = none ↔ l = [] := by
  cases l with
  | nil => simp [maxTimestamp]
  | cons x xs =>
      simp only [maxTimestamp]
      cases h : maxTimestamp xs <;> simp

theorem maxTimestamp_mem : ∀ (l : List Nat) (t : Nat), maxTimestamp l = some t → t ∈ l := by
  intro l
  induction l with
  | nil => intro t h; simp [maxTimestamp] at h
  | cons x xs ih =>
      intro t h
      simp only [maxTimestamp] at h
      cases hm : maxTimestamp xs with
      | none =>
          rw [hm] at h
          obtain rfl : x = t := Option.some.inj h
          exact List.mem_cons_self _ _
      | some m =>
          rw [hm] at h
          obtain rfl : max x m = t := Option.some.inj h
          rcases max_choice x m with hc | hc <;> rw [hc]
          · exact List.mem_cons_self _ _
          · exact List.mem_cons_of_mem _ (ih m hm)

theorem maxTimestamp_le : ∀ (l : List Nat) (t : Nat), maxTimestamp l = some t →
    ∀ x ∈ l, x ≤ t := by
  intro l
  induction l with
  | nil => intro t _ x hx; simp at hx
  | cons y ys ih =>
      intro t h x hx
      simp only [maxTimestamp] at h
      cases hm : maxTimestamp ys with
      | none =>
          rw [hm] at h
          obtain rfl : y = t := Option.some.inj h
          have : ys = [] := (maxTimestamp_eq_none ys).mp hm
          subst this
          exact le_of_eq (by simpa using hx)
      | some m =>
          rw [hm] at h
          obtain rfl : max y m = t := Option.some.inj h
          rcases List.mem_cons.mp hx with h1 | h1
          · exact h1 ▸ le_max_left _ _
          · exact le_trans (ih m hm x h1) (le_max_right _ _)

/-- C4: the quota check before item creation counts only items in live
    status; the unlimited sentinel (-1) always allows regardless of
    count; otherwise it denies exactly when the live count is at least
    the limit, and the denial carries the current count and the limit. -/
theorem checkSkuLimit_spec (db : Db) (companyId : Nat) (skuLimit : Int) :
    (skuLimit = -1 → checkSkuLimit db companyId skuLimit = QuotaDecision.allow) ∧
    (skuLimit ≠ -1 →
      (checkSkuLimit db companyId skuLimit =
          QuotaDecision.deny (liveSkuCount db companyId) skuLimit ↔
        (liveSkuCount db companyId : Int) ≥ skuLimit)) ∧
    (skuLimit ≠ -1 → (liveSkuCount db companyId : Int) < skuLimit →
      checkSkuLimit db companyId skuLimit = QuotaDecision.allow) ∧
    (∀ s : Sku, s.status ≠ SkuStatus.live →
      liveSkuCount { db with skus := s :: db.skus } companyId =
        liveSkuCount db companyId) := by
  refine ⟨?_, ?_, ?_, ?_⟩
  · intro h
    simp [checkSkuLimit, h]
  · intro h
    by_cases hge : (liveSkuCount db companyId : Int) ≥ skuLimit
    · simp [checkSkuLimit, h, hge]
    · simp [checkSkuLimit, h, hge]
  · intro h hlt
    simp [checkSkuLimit, h, not_le.mpr hlt]
  · intro s hs
    simp [liveSkuCount, List.filter_cons, hs]

/-- Witness for C4: a company with two live SKUs and limit 2 is denied
    with count 2 and limit 2; under the unlimited sentinel it is always
    allowed; a company still under its limit is allowed. -/
theorem checkSkuLimit_spec_witness :
    checkSkuLimit dbQuota 1 2 = QuotaDecision.deny 2 2 ∧
    checkSkuLimit dbQuota 1 (-1) = QuotaDecision.allow ∧
    checkSkuLimit dbP 1 1 = QuotaDecision.allow := by
  refine ⟨?_, ?_, ?_⟩
  · have h := ((checkSkuLimit_spec dbQuota 1 2).2.1 (by decide)).mpr (by decide)
    have hc : liveSkuCount dbQuota 1 = 2 := by decide
    rw [hc] at h
    exact h
  · exact (checkSkuLimit_spec dbQuota 1 (-1)).1 rfl
  · exact (checkSkuLimit_spec dbP 1 1).2.2.1 (by decide) (by decide)

/-- C6: a status poll answers the identical NotFound response whether
    the item id does not exist at all or the item belongs to a different
    company, so a cross-company lookup never reveals existence. -/
theorem getStatus_spec (db : Db) (itemId companyId : Nat) :
    ((∀ s ∈ db.skus, s.id ≠ itemId) →
      getStatus db itemId companyId = StatusResp.notFound) ∧
    ((∀ s ∈ db.skus, s.id = itemId → s.companyId ≠ companyId) →
      getStatus db itemId companyId = StatusResp.notFound) := by
  constructor
  · intro h
    have hnil : db.skus.filter (fun s => s.id = itemId ∧ s.companyId = companyId) = [] := by
      apply List.filter_eq_nil_iff.mpr
      intro s hs
      simp only [decide_eq_true_eq, not_and]
      intro hid
      exact absurd hid (h s hs)
    simp only [getStatus]
    rw [hnil]
    rfl
  · intro h
    have hnil : db.skus.filter (fun s => s.id = itemId ∧ s.companyId = companyId) = [] := by
      apply List.filter_eq_nil_iff.mpr
      intro s hs
      simp only [decide_eq_true_eq, not_and]
      exact h s hs
    simp only [getStatus]
    rw [hnil]
    rfl

/-- Witness for C6: in a store holding only company 1's item with id 10,
    polling an unknown id and polling id 10 as company 2 both produce
    NotFound. -/
theorem getStatus_spec_witness :
    getStatus dbDup 999 1 = StatusResp.notFound ∧
    getStatus dbP 7 2 = StatusResp.notFound := by
  constructor
  · exact (getStatus_spec dbDup 999 1).1 (by decide)
  · exact (getStatus_spec dbP 7 2).2 (by decide)

/-- C8: a second submission with the code of an existing item of the
    same company is rejected with 409 and leaves the store unchanged,
    while two different companies may each submit the same code and both
    are accepted. -/
theorem createSku_spec (db : Db) (id1 id2 c1 c2 : Nat)
    (code n1 n2 cat1 cat2 f1 f2 : String) :
    ((db.skus.filter (fun s => s.companyId = c1 ∧ s.skuCode = code)).length = 1 →
      createSku db id1 c1 code n1 cat1 f1 = (db, CreateResp.conflict)) ∧
    (db.skus.filter (fun s => s.companyId = c1 ∧ s.skuCode = code) = [] →
      (createSku db id1 c1 code n1 cat1 f1).2 = CreateResp.accepted ∧
      (createSku (createSku db id1 c1 code n1 cat1 f1).1 id2 c1 code n2 cat2 f2).2 =
        CreateResp.conflict) ∧
    (c1 ≠ c2 →
      db.skus.filter (fun s => s.companyId = c1 ∧ s.skuCode = code) = [] →
      db.skus.filter (fun s => s.companyId = c2 ∧ s.skuCode = code) = [] →
      (createSku db id1 c1 code n1 cat1 f1).2 = CreateResp.accepted ∧
      (createSku (createSku db id1 c1 code n1 cat1 f1).1 id2 c2 code n2 cat2 f2).2 =
        CreateResp.accepted) := by
  refine ⟨?_, ?_, ?_⟩
  · intro hlen
    obtain ⟨x, hx⟩ := List.length_eq_one.mp hlen
    simp only [createSku]
    rw [hx]
    rfl
  · intro hnil
    have h1 : createSku db id1 c1 code n1 cat1 f1 =
        ({ db with skus := db.skus ++ [mkSku id1 c1 code n1 cat1 f1] },
         CreateResp.accepted) := by
      simp only [createSku]
      rw [hnil]
      rfl
    refine ⟨by rw [h1], ?_⟩
    rw [h1]
    simp only [createSku, List.filter_append, hnil]
    have hone : List.filter (fun s => s.companyId = c1 ∧ s.skuCode = code)
        [mkSku id1 c1 code n1 cat1 f1] = [mkSku id1 c1 code n1 cat1 f1] := by
      simp [mkSku]
    rw [hone]
    rfl
  · intro hne hnil1 hnil2
    have h1 : createSku db id1 c1 code n1 cat1 f1 =
        ({ db with skus := db.skus ++ [mkSku id1 c1 code n1 cat1 f1] },
         CreateResp.accepted) := by
      simp only [createSku]
      rw [hnil1]
      rfl
    refine ⟨by rw [h1], ?_⟩
    rw [h1]
    simp only [createSku, List.filter_append, hnil2]
    have hzero : List.filter (fun s => s.companyId = c2 ∧ s.skuCode = code)
        [mkSku id1 c1 code n1 cat1 f1] = [] := by
      simp [mkSku]
      intro hc
      exact absurd hc.symm (Ne.symm hne)
    rw [hzero]
    rfl

/-- Witness for C8: starting from the two-company store, company 1
    resubmitting its existing code X-1 gets a conflict; companies 3 and
    4 both submit the fresh code Y-1 and both are accepted. -/
theorem createSku_spec_witness :
    createSku dbDup 99 1 "X-1" "N" "Other" "/uploads/a.pdf" =
      (dbDup, CreateResp.conflict) ∧
    (createSku dbDup 41 3 "Y-1" "N" "Other" "/uploads/a.pdf").2 =
      CreateResp.accepted ∧
    (createSku (createSku dbDup 41 3 "Y-1" "N" "Other" "/uploads/a.pdf").1
        42 4 "Y-1" "M" "Other" "/uploads/b.pdf").2 = CreateResp.accepted := by
  refine ⟨?_, ?_⟩
  · exact (createSku_spec dbDup 99 99 1 1 "X-1" "N" "N" "Other" "Other"
      "/uploads/a.pdf" "/uploads/a.pdf").1 (by decide)
  · exact (createSku_spec dbDup 41 42 3 4 "Y-1" "N" "M" "Other" "Other"
      "/uploads/a.pdf" "/uploads/b.pdf").2.2 (by decide) (by decide) (by decide)

theorem skuGenerationTask_success (db : Db) (sku : Sku) (baseUrl : String)
    (steps : List Step) (prefsQrReady : Option Bool) :
    skuGenerationTask db sku baseUrl steps true true prefsQrReady true =
      commitLive db sku.id (generateVideo sku.id steps)
        (generateQRCode baseUrl sku.id sku.skuCode) := by
  simp only [skuGenerationTask, processSkuGeneration, Bool.not_true, Bool.false_eq_true,
    if_false]
  cases prefsQrReady.getD true <;> rfl

/-- C5: a successful pipeline run over N extracted steps (N at least 1)
    commits exactly N as the step count and 38·N as the video duration,
    which is a positive integer strictly increasing in the step count. -/
theorem pipelineSuccess_spec (db : Db) (sku : Sku) (baseUrl : String)
    (steps steps2 : List Step) (prefsQrReady : Option Bool)
    (h : 1 ≤ steps.length) :
    (∀ s ∈ (skuGenerationTask db sku baseUrl steps true true prefsQrReady true).skus,
      s.id = sku.id →
        s.stepCount = some steps.length ∧
        s.videoDuration = some (steps.length * 38) ∧
        s.status = SkuStatus.live) ∧
    0 < steps.length * 38 ∧
    (steps.length < steps2.length → steps.length * 38 < steps2.length * 38) := by
  refine ⟨?_, by omega, by intro hlt; omega⟩
  rw [skuGenerationTask_success]
  intro s hs hid
  simp only [commitLive, updateSkus, List.mem_map] at hs
  obtain ⟨s0, _, rfl⟩ := hs
  by_cases h0 : s0.id = sku.id
  · simp [h0, generateVideo]
  · rw [if_neg h0] at hid
    exact absurd hid h0

/-- Witness for C5: running the pipeline on the freshly created item
    with the six placeholder steps commits step count 6, duration 228
    and live status, and duration grows when the step list grows. -/
theorem pipelineSuccess_spec_witness :
    (∀ s ∈ dbAfterSuccess.skus, s.id = skuP.id →
      s.stepCount = some parseSteps.length ∧
      s.videoDuration = some (parseSteps.length * 38) ∧
      s.status = SkuStatus.live) ∧
    0 < parseSteps.length * 38 ∧
    parseSteps.length * 38 < (parseSteps ++ parseSteps).length * 38 := by
  have h := pipelineSuccess_spec dbP skuP "https://assemblyai.app/s" parseSteps
    (parseSteps ++ parseSteps) none (by decide)
  exact ⟨h.1, h.2.1, h.2.2 (by decide)⟩

/-- C1 (violated by the code): after a pipeline run in which generation
    succeeded, the live row was committed, and only the notification
    email then failed, the item sits in error status with every derived
    field still populated — derived-field presence is not all-or-nothing
    with respect to status. -/
theorem statusDerivedFields_violation :
    ∃ s ∈ dbAfterNotifyFail.skus,
      s.status = SkuStatus.err ∧ s.videoUrl ≠ none ∧ s.videoDuration ≠ none ∧
      s.stepCount ≠ none ∧ s.qrCodeUrl ≠ none ∧ s.qrTargetUrl ≠ none := by
  decide

/-- C2 (violated by the code): the same run commits live (as the
    all-successful run shows), but the notification failure then rejects
    the async function and the route's catch handler overwrites the
    already-committed live status with error. -/
theorem notifyFailure_revertsLive :
    (∃ s ∈ dbAfterSuccess.skus, s.id = skuP.id ∧ s.status = SkuStatus.live) ∧
    (∃ s ∈ dbAfterNotifyFail.skus, s.id = skuP.id ∧ s.status ≠ SkuStatus.live ∧
      s.status = SkuStatus.err) := by
  decide

/-- C9: with the code X-1 live for two different companies, every public
    lookup by code resolves globally through a single-row query, so scan
    recording, completion recording, question recording and the consumer
    resolution page all answer NotFound even though each company's item
    individually exists and is live. -/
theorem publicLookupGlobal_dup404 :
    skuDupA.skuCode = skuDupB.skuCode ∧
    skuDupA.companyId ≠ skuDupB.companyId ∧
    skuDupA.status = SkuStatus.live ∧ skuDupB.status = SkuStatus.live ∧
    skuDupA ∈ dbDup.skus ∧ skuDupB ∈ dbDup.skus ∧
    (scanHandler dbDup "X-1" (some "s1") none 10 100).2 = PublicResp.notFound ∧
    (completeHandler dbDup "X-1" "s1" (some 3) (some 5)).2 = PublicResp.notFound ∧
    (questionHandler dbDup "X-1" (some "s1") "why" (some 2)).2 = PublicResp.notFound ∧
    resolvePage dbDup "X-1" = ResolveResp.notFound := by
  decide

/-- C10: public scan recording requires the resolved item to be live,
    but completion and question recording resolve the code with no
    status condition: for an item whose code resolves uniquely and whose
    status is processing or error, a scan is refused with NotFound while
    a completion update and a question append both succeed. -/
theorem publicStatusGate_spec (db : Db) (sku : Sku)
    (sessionId questionText : String) (completionStep rating : Option Nat)
    (userAgent : Option String) (hourOfDay now : Nat)
    (hfilter : db.skus.filter (fun s => s.skuCode = sku.skuCode) = [sku])
    (hstatus : sku.status = SkuStatus.processing ∨ sku.status = SkuStatus.err)
    (hcode : sku.skuCode ≠ "") (hq : questionText ≠ "") :
    (scanHandler db sku.skuCode (some sessionId) userAgent hourOfDay now).2 =
      PublicResp.notFound ∧
    (completeHandler db sku.skuCode sessionId completionStep rating).2 =
      PublicResp.success ∧
    (questionHandler db sku.skuCode (some sessionId) questionText completionStep).2 =
      PublicResp.success := by
  have hnotlive : sku.status ≠ SkuStatus.live := by
    rcases hstatus with h | h <;> simp [h]
  refine ⟨?_, ?_, ?_⟩
  · have hnil : db.skus.filter
        (fun s => s.skuCode = sku.skuCode ∧ s.status = SkuStatus.live) = [] := by
      apply List.filter_eq_nil_iff.mpr
      intro s hs
      simp only [decide_eq_true_eq, not_and]
      intro hsc
      have hmem : s ∈ db.skus.filter (fun x => x.skuCode = sku.skuCode) :=
        List.mem_filter.mpr ⟨hs, by simpa using hsc⟩
      rw [hfilter] at hmem
      have : s = sku := by simpa using hmem
      rw [this]
      exact hnotlive
    simp only [scanHandler, if_neg hcode]
    rw [hnil]
    rfl
  · simp only [completeHandler]
    rw [hfilter]
    simp only [singleRow]
    cases maxTimestamp ((matchingScans db.scans sku.id sessionId).map Scan.scannedAt) <;>
      rfl
  · have hcond : ¬(sku.skuCode = "" ∨ questionText = "") := by
      intro h
      rcases h with h | h
      · exact hcode h
      · exact hq h
    simp only [questionHandler, if_neg hcond]
    rw [hfilter]
    rfl

/-- Witness for C10: with K-1 resolving to the processing item, the scan
    call is refused while completion and question recording succeed. -/
theorem publicStatusGate_spec_witness :
    (scanHandler dbGate "K-1" (some "s9") none 9 60).2 = PublicResp.notFound ∧
    (completeHandler dbGate "K-1" "s9" (some 2) (some 4)).2 = PublicResp.success ∧
    (questionHandler dbGate "K-1" (some "s9") "how" (some 2)).2 = PublicResp.success := by
  have h := publicStatusGate_spec dbGate skuP "s9" "how" (some 2) (some 4) none 9 60
    (by decide) (Or.inl rfl) (by decide) (by decide)
  exact h

/-- C3: a completion event never creates a scan row (the scan count and
    the other tables are unchanged); when the code resolves, the
    response is success, a state with no prior scan row for the session
    is left untouched (zero rows affected, no error), and otherwise the
    only change is one in-place update of a matching scan row whose
    timestamp is maximal among the matching rows. -/
theorem completeHandler_spec (db : Db) (skuCode sessionId : String)
    (completionStep rating : Option Nat) :
    (completeHandler db skuCode sessionId completionStep rating).1.scans.length =
      db.scans.length ∧
    (completeHandler db skuCode sessionId completionStep rating).1.skus = db.skus ∧
    (completeHandler db skuCode sessionId completionStep rating).1.questions =
      db.questions ∧
    (∀ sku, singleRow (db.skus.filter (fun s => s.skuCode = skuCode)) = some sku →
      (completeHandler db skuCode sessionId completionStep rating).2 =
        PublicResp.success ∧
      (matchingScans db.scans sku.id sessionId = [] →
        (completeHandler db skuCode sessionId completionStep rating).1 = db) ∧
      ((completeHandler db skuCode sessionId completionStep rating).1 = db ∨
        ∃ i : Fin db.scans.length,
          (completeHandler db skuCode sessionId completionStep rating).1.scans =
            db.scans.set i
              (applyCompletion completionStep (normRating rating) (db.scans.get i)) ∧
          (db.scans.get i).skuId = sku.id ∧
          (db.scans.get i).sessionId = sessionId ∧
          ∀ s ∈ matchingScans db.scans sku.id sessionId,
            s.scannedAt ≤ (db.scans.get i).scannedAt)) := by
  cases hsr : singleRow (db.skus.filter (fun s => s.skuCode = skuCode)) with
  | none =>
      have hG : completeHandler db skuCode sessionId completionStep rating =
          (db, PublicResp.notFound) := by
        simp only [completeHandler, hsr]
      rw [hG]
      refine ⟨rfl, rfl, rfl, ?_⟩
      intro sku h
      exact absurd h (by simp)
  | some sku0 =>
      cases hmt : maxTimestamp
          ((matchingScans db.scans sku0.id sessionId).map Scan.scannedAt) with
      | none =>
          have hG : completeHandler db skuCode sessionId completionStep rating =
              (db, PublicResp.success) := by
            simp only [completeHandler, hsr, hmt]
          rw [hG]
          refine ⟨rfl, rfl, rfl, ?_⟩
          intro sku h
          obtain rfl : sku0 = sku := Option.some.inj h
          exact ⟨rfl, fun _ => rfl, Or.inl rfl⟩
      | some t =>
          have hupd : (completeHandler db skuCode sessionId completionStep rating).1.scans =
              updateFirst
                (fun s => s.skuId = sku0.id ∧ s.sessionId = sessionId ∧ s.scannedAt = t)
                (applyCompletion completionStep (normRating rating)) db.scans ∧
              (completeHandler db skuCode sessionId completionStep rating).1.skus =
                db.skus ∧
              (completeHandler db skuCode sessionId completionStep rating).1.questions =
                db.questions ∧
              (completeHandler db skuCode sessionId completionStep rating).2 =
                PublicResp.success := by
            simp only [completeHandler, hsr, hmt]
            exact ⟨trivial, trivial, trivial, trivial⟩
          refine ⟨by rw [hupd.1]; exact updateFirst_length _ _ _,
                  hupd.2.1, hupd.2.2.1, ?_⟩
          intro sku h
          obtain rfl : sku0 = sku := Option.some.inj h
          refine ⟨hupd.2.2.2, ?_, ?_⟩
          · intro hm
            rw [hm] at hmt
            simp [maxTimestamp] at hmt
          · right
            have htmem : t ∈ (matchingScans db.scans sku0.id sessionId).map Scan.scannedAt :=
              maxTimestamp_mem _ _ hmt
            obtain ⟨s0, hs0m, hs0t⟩ := List.mem_map.mp htmem
            have hs0 : s0 ∈ db.scans ∧ (s0.skuId = sku0.id ∧ s0.sessionId = sessionId) := by
              have := List.mem_filter.mp hs0m
              exact ⟨this.1, by simpa using this.2⟩
            have hex : ∃ x ∈ db.scans,
                (decide (x.skuId = sku0.id ∧ x.sessionId = sessionId ∧ x.scannedAt = t)) =
                  true := by
              refine ⟨s0, hs0.1, ?_⟩
              simp [hs0.2.1, hs0.2.2, hs0t]
            obtain ⟨i, hpi, heq⟩ := updateFirst_exists
              (fun x => x.skuId = sku0.id ∧ x.sessionId = sessionId ∧ x.scannedAt = t)
              (applyCompletion completionStep (normRating rating)) db.scans hex
            simp only [decide_eq_true_eq] at hpi
            refine ⟨i, ?_, hpi.1, hpi.2.1, ?_⟩
            · rw [hupd.1]
              exact heq
            · intro s hsm
              have : s.scannedAt ∈
                  (matchingScans db.scans sku0.id sessionId).map Scan.scannedAt :=
                List.mem_map_of_mem _ hsm
              have hle := maxTimestamp_le _ _ hmt _ this
              rw [hpi.2.2]
              exact hle

/-- Witness for C3: completing session s9 on the store with one prior
    scan keeps the scan count, answers success, and completing an
    unknown session leaves the store untouched while still answering
    success. -/
theorem completeHandler_spec_witness :
    (completeHandler dbGate "K-1" "s9" (some 2) (some 4)).1.scans.length =
      dbGate.scans.length ∧
    (completeHandler dbGate "K-1" "s9" (some 2) (some 4)).2 = PublicResp.success ∧
    (completeHandler dbGate "K-1" "zz" none none).1 = dbGate ∧
    (completeHandler dbGate "K-1" "zz" none none).2 = PublicResp.success := by
  have h1 := completeHandler_spec dbGate "K-1" "s9" (some 2) (some 4)
  have h2 := completeHandler_spec dbGate "K-1" "zz" none none
  refine ⟨h1.1, (h1.2.2.2 skuP (by decide)).1, ?_, (h2.2.2.2 skuP (by decide)).1⟩
  exact (h2.2.2.2 skuP (by decide)).2.1 (by decide)

/-- C7: the period presets map to day buckets for the 7- and 30-day
    windows, week buckets for the 90- and 180-day windows, and month
    buckets for the 365-day and unbounded windows; for any events and
    period, the emitted series is strictly ascending in its keys, each
    entry's count is the number of events whose timestamp derives that
    bucket key (and is positive), every event lands in some emitted
    bucket, week keys are Sunday-aligned, and the 2024-01-01 /
    2024-01-02 pair under the 7-day window yields two distinct ascending
    buckets each of count 1 (19723 is the day number of 2024-01-01). -/
theorem groupScans_spec (scans : List Int) (period : String) :
    (getGroupBy "7d" = GroupBy.day ∧ getGroupBy "30d" = GroupBy.day ∧
     getGroupBy "3m" = GroupBy.week ∧ getGroupBy "6m" = GroupBy.week ∧
     getGroupBy "1y" = GroupBy.month ∧ getGroupBy "all" = GroupBy.month) ∧
    List.Pairwise (fun a b => a.1 < b.1) (groupScans scans (getGroupBy period)) ∧
    (∀ k c, (k, c) ∈ groupScans scans (getGroupBy period) →
      c = (scans.map (bucketKey (getGroupBy period))).count k ∧ 0 < c) ∧
    (∀ d ∈ scans, ∃ c,
      (bucketKey (getGroupBy period) d, c) ∈ groupScans scans (getGroupBy period)) ∧
    (∀ k c, (k, c) ∈ groupScans scans GroupBy.week → dayOfWeek k = 0) ∧
    groupScans [19723, 19724] (getGroupBy "7d") = [(19723, 1), (19724, 1)] := by
  refine ⟨by decide, ?_, ?_, ?_, ?_, by decide⟩
  · rw [groupScans, List.pairwise_map]
    have hsorted : List.Sorted (· ≤ ·)
        (List.insertionSort (· ≤ ·) ((scans.map (bucketKey (getGroupBy period))).dedup)) :=
      List.sorted_insertionSort _ _
    have hnodup : (List.insertionSort (· ≤ ·)
        ((scans.map (bucketKey (getGroupBy period))).dedup)).Nodup :=
      (List.perm_insertionSort _ _).symm.nodup (List.nodup_dedup _)
    exact hsorted.lt_of_le hnodup
  · intro k c hkc
    rw [groupScans] at hkc
    obtain ⟨k', hk', hpair⟩ := List.mem_map.mp hkc
    have h1 : k = k' := (congrArg Prod.fst hpair).symm
    have h2 : c = (scans.map (bucketKey (getGroupBy period))).count k' :=
      (congrArg Prod.snd hpair).symm
    subst h1
    subst h2
    refine ⟨rfl, ?_⟩
    have hmem : k ∈ (scans.map (bucketKey (getGroupBy period))).dedup :=
      ((List.perm_insertionSort _ _).mem_iff).mp hk'
    exact List.count_pos_iff.mpr (List.mem_dedup.mp hmem)
  · intro d hd
    refine ⟨(scans.map (bucketKey (getGroupBy period))).count (bucketKey (getGroupBy period) d), ?_⟩
    rw [groupScans]
    apply List.mem_map_of_mem
    rw [(List.perm_insertionSort _ _).mem_iff, List.mem_dedup]
    exact List.mem_map_of_mem _ hd
  · intro k c hkc
    rw [groupScans] at hkc
    obtain ⟨k', hk', hpair⟩ := List.mem_map.mp hkc
    have h1 : k = k' := (congrArg Prod.fst hpair).symm
    subst h1
    have hmem : k ∈ (scans.map (bucketKey GroupBy.week)).dedup :=
      ((List.perm_insertionSort _ _).mem_iff).mp hk'
    obtain ⟨d, _, rfl⟩ := List.mem_map.mp (List.mem_dedup.mp hmem)
    simp only [bucketKey, dayOfWeek]
    show (d - (d + 4) % 7 + 4) % 7 = 0
    omega

/-- Witness for C7: instantiating the grouping theorem at the concrete
    events 2024-01-01 and 2024-01-02 (day numbers 19723 and 19724) under
    the 7-day window reads off a count of 1 for bucket 19723, and the
    week bucket of 2024-01-01 is the Sunday 2023-12-31 (day 19722). -/
theorem groupScans_spec_witness :
    (1 = ([19723, 19724].map (bucketKey (getGroupBy "7d"))).count 19723 ∧
      (0 : Nat) < 1) ∧
    dayOfWeek 19722 = 0 := by
  have h := groupScans_spec [19723, 19724] "7d"
  have h2 := groupScans_spec [19723] "7d"
  exact ⟨h.2.2.1 19723 1 (by decide), h2.2.2.2.2.1 19722 1 (by decide)⟩
